import Mathlib

/-!
Verification of the tool-calling agent loop of the travel-assistant repository.

The embedding follows `src/src/agents/agent.py` (the `Agent` class and its
LangGraph wiring), `src/src/agents/tools/weather_check.py` (the weather tool's
validation logic) and `src/src/travel_assistant.py` (the presentation layer's
degraded-result check).  External effects (the OpenAI chat call and the tool
implementations, which perform HTTP) are modelled as oracles passed in as
function parameters; everything the repository itself computes is embedded
directly.
-/

/-- Message roles used by the agent loop (langchain message classes):
`SystemMessage`, `HumanMessage`, `AIMessage`, `ToolMessage`. -/
inductive Role where
  | system
  | human
  | ai
  | tool
  deriving DecidableEq

/-- A tool-call request as produced by the model: `tool_call['id']`,
`tool_call['name']`, `tool_call['args']` (the argument map is kept opaque as
its serialized form). -/
structure ToolCall where
  id : String
  name : String
  args : String
  deriving DecidableEq

/-- A conversation message.  `tool_calls` is nonempty only on assistant
messages; `tool_call_id` and `name` are set only on tool-result messages,
mirroring `ToolMessage(tool_call_id=..., name=..., content=...)`. -/
structure Message where
  role : Role
  content : String
  tool_calls : List ToolCall := []
  tool_call_id : String := ""
  name : String := ""
  deriving DecidableEq

/-- Python `str.upper()` as used on tool names (all ASCII). -/
def pyUpper (s : String) : String := ⟨s.data.map Char.toUpper⟩

/-- Embeds `Agent._format_error_message`. -/
def formatErrorMessage (toolName error : String) : String :=
  "[" ++ pyUpper toolName ++ " ERROR] " ++ error ++
    ". The assistant will continue with available information."

/-- Outcome of `self._tools[tool_name].invoke(tool_call['args'])`:
a plain success value (its `str(...)` form), a dict carrying an `error` key
(with that key's value), or a raised exception (with its `str(e)` text). -/
inductive ToolOutcome where
  | ok (value : String)
  | errorDict (err : String)
  | raised (msg : String)
  deriving DecidableEq

/-- The registry keys of `self._tools = \x7bt.name: t for t in TOOLS\x7d`. -/
def toolNames : List String := ["flights_finder", "hotels_finder", "weather_check"]

/-- One iteration of the `for tool_call in tool_calls` loop of
`Agent.invoke_tools`: the produced `ToolMessage` and the names appended to
`failed_tools` by this iteration.  A name absent from the registry raises
`ToolExecutionError("Tool \x27<name>\x27 not found")`, which the same
`except` clause converts to a formatted error message. -/
def runToolCall (impl : String → String → ToolOutcome) (registry : List String)
    (tc : ToolCall) : Message × List String :=
  if tc.name ∈ registry then
    match impl tc.name tc.args with
    | .ok v =>
        ({ role := .tool, content := v, tool_call_id := tc.id, name := tc.name }, [])
    | .errorDict e =>
        ({ role := .tool, content := formatErrorMessage tc.name e,
           tool_call_id := tc.id, name := tc.name }, [tc.name])
    | .raised m =>
        ({ role := .tool, content := formatErrorMessage tc.name m,
           tool_call_id := tc.id, name := tc.name }, [tc.name])
  else
    ({ role := .tool,
       content := formatErrorMessage tc.name ("Tool \x27" ++ tc.name ++ "\x27 not found"),
       tool_call_id := tc.id, name := tc.name }, [tc.name])

/-- The whole per-request loop of `Agent.invoke_tools` (the Tool Executor of
the spec): the `results` list and the `failed_tools` list, in request order. -/
def executeTools (impl : String → String → ToolOutcome) (registry : List String) :
    List ToolCall → List Message × List String
  | [] => ([], [])
  | tc :: rest =>
    let r := runToolCall impl registry tc
    let rs := executeTools impl registry rest
    (r.1 :: rs.1, r.2 ++ rs.2)

/-- The `TOOLS_SYSTEM_PROMPT` f-string, parameterised by `CURRENT_YEAR` (fixed
at process start in the source). -/
def toolsSystemPrompt (currentYear : Nat) : String :=
  "You are a smart travel agency. Use the tools to look up information.\n    You are allowed to make multiple calls (either together or in sequence).\n    Only look up information when you are sure of what you want.\n    The current year is "
    ++ toString currentYear ++
    ".\n    If you need to look up some information before asking a follow up question, you are allowed to do that!\n    I want to have in your output links to hotels websites and flights websites (if possible).\n    I want to have as well the logo of the hotel. (if possible).\n    In your output always include the price of the flight and the price of the hotel and the currency as well (if possible).\n    for example for hotels-\n    Rate: $581 per night\n    Total: $3,488\n    "

/-- The `SystemMessage(content=TOOLS_SYSTEM_PROMPT)` prepended before each
model call. -/
def systemMessage (currentYear : Nat) : Message :=
  { role := .system, content := toolsSystemPrompt currentYear }

/-- The f-string body of `Agent._generate_fallback_plan`, with
`\x7b\x27, \x27.join(failed_tools)\x7d` rendered by `String.intercalate`. -/
def fallbackPrompt (originalPrompt : String) (failedTools : List String) : String :=
  "\n        The following tools failed: " ++ String.intercalate ", " failedTools ++
    ".\n        Original request: " ++ originalPrompt ++
    "\n        \n        Please generate a travel plan using only the information we have available.\n        Focus on providing:\n        1. A general daily itinerary\n        2. Local attractions and restaurant recommendations\n        3. General packing tips\n        4. A basic travel checklist\n        \n        Clearly indicate which information is missing and provide alternative suggestions where possible.\n        "

/-- The assistant message returned by `self._tools_llm.invoke(...)`
(`ChatOpenAI` bound to the tools): content plus zero or more tool-call
requests; the role is always assistant. -/
structure AIResponse where
  content : String
  tool_calls : List ToolCall := []
  deriving DecidableEq

/-- Wrap the chat model's response as an `AIMessage` in the conversation. -/
def AIResponse.toMessage (r : AIResponse) : Message :=
  { role := .ai, content := r.content, tool_calls := r.tool_calls }

/-- The external collaborators of the `Agent`: the chat model (which can fail
with a provider exception, modelled as `Except.error`), the tool
implementations, the registry keys, and `CURRENT_YEAR`. -/
structure AgentEnv where
  llm : List Message → Except String AIResponse
  impl : String → String → ToolOutcome
  registry : List String
  currentYear : Nat

/-- The LangGraph nodes of `Agent.__init__` plus the `END` node. -/
inductive Node where
  | call_tools_llm
  | invoke_tools
  | done
  deriving DecidableEq

/-- The graph state: the current node, the accumulated `messages` channel
(`operator.add`), and the agent-lifetime `self._error_count`. -/
structure GraphState where
  node : Node
  messages : List Message
  errorCount : Nat
  deriving DecidableEq

/-- Embeds `self._max_retries`. -/
def maxRetries : Nat := 3

/-- A placeholder for `state[\x27messages\x27][-1]` / `[0]` on an empty list
(unreachable in the graph: the state is seeded with a user message). -/
def dummyMessage : Message := { role := .ai, content := "" }

/-- Embeds `state[\x27messages\x27][-1]`. -/
def lastMessage (msgs : List Message) : Message := msgs.getLastD dummyMessage

/-- Embeds `state[\x27messages\x27][0]`. -/
def firstMessage (msgs : List Message) : Message := msgs.headD dummyMessage

/-- Embeds `Agent.call_tools_llm`: prepend a fresh system message and invoke the
bound chat model on the result. -/
def call_tools_llm (env : AgentEnv) (s : GraphState) : Except String AIResponse :=
  env.llm (systemMessage env.currentYear :: s.messages)

/-- Embeds `Agent.exists_action`: the conditional edge out of `call_tools_llm`; true
selects `more_tools`, false selects `done`. -/
def exists_action (msgs : List Message) : Bool :=
  !(lastMessage msgs).tool_calls.isEmpty

/-- Embeds `Agent.invoke_tools`: run the per-request loop, bump `self._error_count`
when `failed_tools` is nonempty, and when the count has reached
`self._max_retries` replace the results with the one fallback message from
`Agent._generate_fallback_plan` (which makes one more chat-model call on a
fresh system + human pair). -/
def invoke_tools (env : AgentEnv) (s : GraphState) :
    Except String (List Message × Nat) :=
  let er := executeTools env.impl env.registry (lastMessage s.messages).tool_calls
  let errorCount := if er.2.isEmpty then s.errorCount else s.errorCount + 1
  if maxRetries ≤ errorCount then
    match env.llm [systemMessage env.currentYear,
        { role := .human,
          content := fallbackPrompt (firstMessage s.messages).content er.2 }] with
    | .error e => .error e
    | .ok r => .ok ([r.toMessage], errorCount)
  else
    .ok (er.1, errorCount)

/-- One node transition of the compiled graph, with the edges wired in
`Agent.__init__`: conditional edges out of `call_tools_llm` through
`exists_action`, and an unconditional edge `invoke_tools → call_tools_llm`. -/
def stepGraph (env : AgentEnv) (s : GraphState) : Except String GraphState :=
  match s.node with
  | .done => .ok s
  | .call_tools_llm =>
    match call_tools_llm env s with
    | .error e => .error e
    | .ok r =>
      let msgs := s.messages ++ [r.toMessage]
      if exists_action msgs then .ok ⟨.invoke_tools, msgs, s.errorCount⟩
      else .ok ⟨.done, msgs, s.errorCount⟩
  | .invoke_tools =>
    match invoke_tools env s with
    | .error e => .error e
    | .ok (ms, ec) => .ok ⟨.call_tools_llm, s.messages ++ ms, ec⟩

/-- Run the graph for at most `fuel` node transitions, stopping at `END`; a
provider exception aborts the whole invocation. -/
def runGraph (env : AgentEnv) : Nat → GraphState → Except String GraphState
  | 0, s => .ok s
  | n + 1, s =>
    match s.node with
    | .done => .ok s
    | _ =>
      match stepGraph env s with
      | .error e => .error e
      | .ok s' => runGraph env n s'

/-- Outcome of the upstream WeatherAPI call in `weather_check`: the request
(or `raise_for_status`, or JSON handling) raises, or the parsed body lacks a
populated `forecast.forecastday`, or it has one day whose fields are passed
through (kept as opaque strings here). -/
inductive UpstreamWeather where
  | raised (msg : String)
  | noForecast
  | forecast (condition avgTempC maxTempC minTempC : String)
  deriving DecidableEq

/-- The dict returned by `weather_check`: a dict with an `error` key, a dict
with an `info` key, or the forecast payload dict. -/
inductive WeatherOutput where
  | errorMap (msg : String)
  | infoMap (msg : String)
  | forecastMap (location date condition avgTempC maxTempC minTempC : String)
  deriving DecidableEq

/-- Whether the dict carries an `error` key. -/
def WeatherOutput.isErrorMap : WeatherOutput → Bool
  | .errorMap _ => true
  | _ => false

/-- Whether the dict is the informational (non-error) `info` map. -/
def WeatherOutput.isInfoMap : WeatherOutput → Bool
  | .infoMap _ => true
  | _ => false

/-- Embeds `weather_check` from `src/src/agents/tools/weather_check.py`.  Dates are
modelled as day numbers: `parseDate` maps a YYYY-MM-DD string to its day
number (`none` on a `strptime` failure), `today` is the current day number,
so `parseDate date - today` is `(forecast_date.date() - today).days`;
`max_forecast_days = 14`. -/
def weather_check (apiKey : Option String) (parseDate : String → Option Int)
    (today : Int) (upstream : UpstreamWeather) (location date : String) :
    WeatherOutput :=
  match apiKey with
  | none => .errorMap "WEATHER_API_KEY environment variable is not set."
  | some _ =>
    match parseDate date with
    | none =>
      .errorMap ("Invalid date format: " ++ date ++ ". Must be in YYYY-MM-DD format.")
    | some forecastDay =>
      let daysAhead := forecastDay - today
      if daysAhead < 0 then
        .errorMap "Cannot check weather for a past date."
      else if 14 < daysAhead then
        .infoMap ("Real-time weather forecast is not available for " ++ date ++
          " in " ++ location ++
          ". Here is a general weather summary for this time of year based on historical data and LLM knowledge.")
      else
        match upstream with
        | .raised e => .errorMap ("Weather API error: " ++ e)
        | .noForecast =>
          .errorMap ("No weather data available for " ++ location ++ " on " ++ date ++ ".")
        | .forecast c a mx mn => .forecastMap location date c a mx mn

/-- The degraded-result markers matched by `send_message` in
`src/src/travel_assistant.py`. -/
def errorMarkers : List String := ["[FLIGHTS ERROR]", "[HOTELS ERROR]"]

/-- Python `needle in hay` on strings: substring containment. -/
def strContains (hay needle : String) : Bool := decide (needle.data <:+: hay.data)

/-- The `any(error_marker in assistant_response for error_marker in ...)`
check of `send_message`. -/
def degradedCheck (response : String) : Bool :=
  errorMarkers.any fun m => strContains response m

/-- A tool oracle on which every call succeeds. -/
def implSucceed : String → String → ToolOutcome := fun _ _ => .ok "ok"

/-- A tool oracle on which every call returns an error dict. -/
def implFailDict : String → String → ToolOutcome := fun _ _ => .errorDict "API key missing"

/-- A tool oracle on which every call raises. -/
def implRaise : String → String → ToolOutcome := fun _ _ => .raised "API key missing"

/-- A tool oracle raising exactly the not-found exception text for its name. -/
def implRaiseNotFound : String → String → ToolOutcome :=
  fun n _ => .raised ("Tool \x27" ++ n ++ "\x27 not found")

/-- A concrete flight-search tool call. -/
def tcFlights : ToolCall := { id := "call1", name := "flights_finder", args := "" }

/-- A concrete hotel-search tool call. -/
def tcHotels : ToolCall := { id := "call2", name := "hotels_finder", args := "" }

/-- A tool call whose name is not registered. -/
def tcUnknown : ToolCall := { id := "call3", name := "restaurants_finder", args := "" }

/-- A registry that does know the otherwise-unknown name. -/
def registryWide : List String := ["restaurants_finder"]

/-- A chat-model oracle answering without tool calls. -/
def llmPlain : List Message → Except String AIResponse :=
  fun _ => .ok { content := "Here is your plan." }

/-- A chat-model oracle that always requests a tool call. -/
def llmToolHungry : List Message → Except String AIResponse :=
  fun _ => .ok { content := "Looking that up.", tool_calls := [tcFlights] }

/-- A chat-model oracle whose provider call fails. -/
def llmDown : List Message → Except String AIResponse :=
  fun _ => .error "rate limited"

/-- Environment: failing tools, a model that answers plainly. -/
def envPlain : AgentEnv := ⟨llmPlain, implRaise, toolNames, 2025⟩

/-- Environment: failing tools, a model that keeps requesting tools. -/
def envBug : AgentEnv := ⟨llmToolHungry, implRaise, toolNames, 2025⟩

/-- Environment: healthy tools, a model whose provider call fails. -/
def envDown : AgentEnv := ⟨llmDown, implSucceed, toolNames, 2025⟩

/-- Environment: healthy tools, healthy model. -/
def envOk : AgentEnv := ⟨llmPlain, implSucceed, toolNames, 2025⟩

/-- A seeded user message. -/
def msgUser : Message := { role := .human, content := "Plan Sydney to Melbourne" }

/-- An assistant message requesting the flight and hotel tools. -/
def msgAiCalls : Message := { role := .ai, content := "", tool_calls := [tcFlights, tcHotels] }

/-- A state about to execute two tool calls, with no failures so far. -/
def sToolsPass : GraphState := ⟨.invoke_tools, [msgUser, msgAiCalls], 0⟩

/-- A state about to execute tools with two prior failing passes. -/
def sBug : GraphState := ⟨.invoke_tools, [msgUser, msgAiCalls], 2⟩

/-- A state about to execute tools after the counter already reached 3. -/
def sThresh : GraphState := ⟨.invoke_tools, [msgUser, msgAiCalls], 3⟩

/-- A state about to call the model on a fresh user message. -/
def sCall : GraphState := ⟨.call_tools_llm, [msgUser], 0⟩

/-- A chat-model oracle that answers plainly on nonempty inputs and differs
from `llmPlain` elsewhere. -/
def llmPlainAlt : List Message → Except String AIResponse :=
  fun msgs =>
    if msgs.isEmpty then .error "empty" else .ok { content := "Here is your plan." }

/-- Same as `envOk` but with `llmPlainAlt` as its chat model. -/
def envOkAlt : AgentEnv := ⟨llmPlainAlt, implSucceed, toolNames, 2025⟩

/-- The terminal state of running `envOk` from `sCall`. -/
def sDonePlain : GraphState :=
  ⟨.done, [msgUser, AIResponse.toMessage { content := "Here is your plan." }], 0⟩

/-- The state after the fallback fires from `sThresh` under `envOk`. -/
def sAfterFallback : GraphState :=
  ⟨.call_tools_llm,
   sThresh.messages ++ [AIResponse.toMessage { content := "Here is your plan." }], 3⟩

theorem runToolCall_tool_call_id (impl : String → String → ToolOutcome)
    (registry : List String) (tc : ToolCall) :
    (runToolCall impl registry tc).1.tool_call_id = tc.id := by
  unfold runToolCall
  split
  · cases impl tc.name tc.args <;> rfl
  · rfl

theorem runToolCall_role (impl : String → String → ToolOutcome)
    (registry : List String) (tc : ToolCall) :
    (runToolCall impl registry tc).1.role = Role.tool := by
  unfold runToolCall
  split
  · cases impl tc.name tc.args <;> rfl
  · rfl

/-- C2: for every sequence of N tool-call requests given to the Tool Executor
(the per-request loop of `Agent.invoke_tools`), it returns exactly N result
messages, in request order, each carrying the call identifier of its request,
for every behaviour of the underlying tools. -/
theorem executor_one_result_per_request (impl : String → String → ToolOutcome)
    (registry : List String) (tcs : List ToolCall) :
    (executeTools impl registry tcs).1.length = tcs.length ∧
    (executeTools impl registry tcs).1.map (fun m => m.tool_call_id) =
      tcs.map (fun tc => tc.id) := by
  induction tcs with
  | nil => exact ⟨rfl, rfl⟩
  | cons tc rest ih =>
    refine ⟨?_, ?_⟩
    · simpa [executeTools] using ih.1
    · simpa [executeTools, runToolCall_tool_call_id] using ih.2

theorem invoke_tools_errorCount (env : AgentEnv) (s : GraphState)
    (ms : List Message) (ec : Nat) (h : invoke_tools env s = .ok (ms, ec)) :
    ec = if (executeTools env.impl env.registry
          (lastMessage s.messages).tool_calls).2.isEmpty
        then s.errorCount else s.errorCount + 1 := by
  simp only [invoke_tools] at h
  repeat' split at h
  all_goals simp_all

/-- C3: a tool-execution pass with at least one failed call (nonempty
`failed_tools`) increments `self._error_count` by exactly 1 — never by the
number of failures — and a pass with no failures leaves it unchanged. -/
theorem failure_counter_single_increment (env : AgentEnv) (s : GraphState)
    (ms : List Message) (ec : Nat) (h : invoke_tools env s = .ok (ms, ec)) :
    ec = s.errorCount +
      (if (executeTools env.impl env.registry
            (lastMessage s.messages).tool_calls).2.isEmpty
        then 0 else 1) := by
  rw [invoke_tools_errorCount env s ms ec h]
  split <;> simp

/-- C3 witness: a single pass in which both requested tools fail bumps the
counter from 0 to 1, not to 2. -/
theorem failure_counter_single_increment_witness :
    (1 : Nat) = sToolsPass.errorCount +
      (if (executeTools envPlain.impl envPlain.registry
            (lastMessage sToolsPass.messages).tool_calls).2.isEmpty
        then 0 else 1) :=
  failure_counter_single_increment envPlain sToolsPass
    (executeTools envPlain.impl envPlain.registry
      (lastMessage sToolsPass.messages).tool_calls).1 1 rfl

/-- C4: a failed call's result content is exactly the uniform format string,
and a tool returning an error dict with text `x` produces the same result
message as a tool raising an exception with text `x`, for the same tool
name. -/
theorem error_format_uniform (implE implR : String → String → ToolOutcome)
    (registry : List String) (tc : ToolCall) (x : String)
    (hmem : tc.name ∈ registry)
    (hE : implE tc.name tc.args = .errorDict x)
    (hR : implR tc.name tc.args = .raised x) :
    (runToolCall implE registry tc).1.content =
      "[" ++ pyUpper tc.name ++ " ERROR] " ++ x ++
        ". The assistant will continue with available information." ∧
    (runToolCall implR registry tc).1 = (runToolCall implE registry tc).1 := by
  constructor <;> simp [runToolCall, formatErrorMessage, hmem, hE, hR]

/-- C4 witness: the flights tool returning an error dict and raising an
exception with the same text yield identical formatted result messages. -/
theorem error_format_uniform_witness :
    (runToolCall implFailDict toolNames tcFlights).1.content =
      "[" ++ pyUpper tcFlights.name ++ " ERROR] " ++ "API key missing" ++
        ". The assistant will continue with available information." ∧
    (runToolCall implRaise toolNames tcFlights).1 =
      (runToolCall implFailDict toolNames tcFlights).1 :=
  error_format_uniform implFailDict implRaise toolNames tcFlights
    "API key missing" (by decide) rfl rfl

/-- C8: a request whose tool name is absent from the registry yields the
uniform not-found failure message, records the name as failed, and is handled
exactly as a registered tool raising the same exception text; no exception
escapes (the embedding is a total function). -/
theorem tool_not_found_handling (impl implR : String → String → ToolOutcome)
    (registry registryR : List String) (tc : ToolCall)
    (habs : tc.name ∉ registry) (hmem : tc.name ∈ registryR)
    (hR : implR tc.name tc.args =
      .raised ("Tool \x27" ++ tc.name ++ "\x27 not found")) :
    (runToolCall impl registry tc).1.content =
      formatErrorMessage tc.name ("Tool \x27" ++ tc.name ++ "\x27 not found") ∧
    (runToolCall impl registry tc).2 = [tc.name] ∧
    runToolCall impl registry tc = runToolCall implR registryR tc := by
  refine ⟨?_, ?_, ?_⟩ <;> simp [runToolCall, habs, hmem, hR]

/-- C8 witness: the unregistered name restaurants_finder is synthesized into
a formatted failure identical to an execution error. -/
theorem tool_not_found_handling_witness :
    (runToolCall implSucceed toolNames tcUnknown).1.content =
      formatErrorMessage tcUnknown.name
        ("Tool \x27" ++ tcUnknown.name ++ "\x27 not found") ∧
    (runToolCall implSucceed toolNames tcUnknown).2 = [tcUnknown.name] ∧
    runToolCall implSucceed toolNames tcUnknown =
      runToolCall implRaiseNotFound registryWide tcUnknown :=
  tool_not_found_handling implSucceed implRaiseNotFound toolNames registryWide
    tcUnknown (by decide) (by decide) rfl

/-- C1 (code-bug evidence): with the counter at 2 and a pass whose tools fail,
the fallback fires inside `invoke_tools` (`self._error_count` reaches 3), yet
the unconditional graph edge `invoke_tools → call_tools_llm` returns control
to the model node rather than `END`; the model is invoked once more and, its
response carrying tool calls, the tool-execution cycle is re-entered — the
loop neither goes straight to `DONE` nor keeps the fallback response as the
final answer. -/
theorem fallback_not_terminal :
    (stepGraph envBug sBug).map GraphState.node = .ok Node.call_tools_llm ∧
    ((stepGraph envBug sBug).bind (stepGraph envBug)).map GraphState.node =
      .ok Node.invoke_tools :=
  ⟨rfl, rfl⟩

/-- C6: a provider failure in the model call aborts the whole graph run with
exactly that error: it is not retried, not converted into a conversational
message, and no successor state exists, so the failure counter is untouched. -/
theorem model_error_propagates (env : AgentEnv) (s : GraphState) (e : String)
    (n : Nat) (hnode : s.node = Node.call_tools_llm)
    (hllm : env.llm (systemMessage env.currentYear :: s.messages) = .error e) :
    runGraph env (n + 1) s = .error e := by
  obtain ⟨node, msgs, ec⟩ := s
  cases hnode
  simp [runGraph, stepGraph, call_tools_llm] at hllm ⊢
  simp [hllm]

/-- C6 witness: a rate-limited provider call surfaces as-is from the run. -/
theorem model_error_propagates_witness :
    runGraph envDown 1 sCall = .error "rate limited" :=
  model_error_propagates envDown sCall "rate limited" 0 rfl rfl

theorem executeTools_roles (impl : String → String → ToolOutcome)
    (registry : List String) (tcs : List ToolCall) :
    ∀ m ∈ (executeTools impl registry tcs).1, m.role = Role.tool := by
  induction tcs with
  | nil => intro m hm; cases hm
  | cons tc rest ih =>
    intro m hm
    simp only [executeTools, List.mem_cons] at hm
    rcases hm with rfl | hm
    · exact runToolCall_role impl registry tc
    · exact ih m hm

theorem invoke_tools_roles (env : AgentEnv) (s : GraphState)
    (ms : List Message) (ec : Nat) (h : invoke_tools env s = .ok (ms, ec)) :
    ∀ m ∈ ms, m.role ≠ Role.system := by
  have hroles := executeTools_roles env.impl env.registry
    (lastMessage s.messages).tool_calls
  simp only [invoke_tools] at h
  repeat' split at h
  all_goals cases h
  all_goals intro m hm
  all_goals
    first
      | (simp only [List.mem_singleton] at hm
         subst hm
         simp [AIResponse.toMessage])
      | (have hrole := hroles m hm
         simp [hrole])

theorem stepGraph_no_system (env : AgentEnv) (s s' : GraphState)
    (hstep : stepGraph env s = .ok s')
    (hs : ∀ m ∈ s.messages, m.role ≠ Role.system) :
    ∀ m ∈ s'.messages, m.role ≠ Role.system := by
  simp only [stepGraph] at hstep
  split at hstep
  · cases hstep; exact hs
  · split at hstep
    · cases hstep
    · split at hstep
      all_goals cases hstep
      all_goals intro m hm
      all_goals rcases List.mem_append.mp hm with hm' | hm'
      · exact hs m hm'
      · simp only [List.mem_singleton] at hm'
        subst hm'
        simp [AIResponse.toMessage]
      · exact hs m hm'
      · simp only [List.mem_singleton] at hm'
        subst hm'
        simp [AIResponse.toMessage]
  · split at hstep
    · cases hstep
    · rename_i ms ec heq
      cases hstep
      intro m hm
      rcases List.mem_append.mp hm with hm' | hm'
      · exact hs m hm'
      · exact invoke_tools_roles env s ms ec heq m hm'

/-- C7: (i) at the model node the step depends on the chat model only through
its value on the freshly prepended system-plus-history list, so the system
prompt is derived anew at call time from the year-parameterised template;
(ii) along any run, a stored message sequence holding no system message never
acquires one — the loop never persists the system prompt into the
conversation state. -/
theorem system_prompt_fresh_not_persisted :
    (∀ env₁ env₂ : AgentEnv, ∀ s : GraphState,
      env₁.impl = env₂.impl → env₁.registry = env₂.registry →
      env₁.currentYear = env₂.currentYear → s.node = Node.call_tools_llm →
      env₁.llm (systemMessage env₁.currentYear :: s.messages) =
        env₂.llm (systemMessage env₂.currentYear :: s.messages) →
      stepGraph env₁ s = stepGraph env₂ s) ∧
    (∀ env : AgentEnv, ∀ n : Nat, ∀ s s' : GraphState,
      runGraph env n s = .ok s' →
      (∀ m ∈ s.messages, m.role ≠ Role.system) →
      ∀ m ∈ s'.messages, m.role ≠ Role.system) := by
  constructor
  · rintro ⟨l1, i1, r1, y1⟩ ⟨l2, i2, r2, y2⟩ s h1 h2 h3 hnode hagree
    simp only at h1 h2 h3
    subst h1; subst h2; subst h3
    obtain ⟨node, msgs, ec⟩ := s
    simp only at hnode
    subst hnode
    simp only [stepGraph, call_tools_llm] at hagree ⊢
    rw [hagree]
  · intro env n
    induction n with
    | zero =>
      intro s s' h hs
      cases h
      exact hs
    | succ n ih =>
      intro s s' h hs
      simp only [runGraph] at h
      split at h
      · cases h; exact hs
      · split at h
        · cases h
        · rename_i s'' hstep
          exact ih _ s' h (stepGraph_no_system env s s'' hstep hs)

/-- C7 witness: two environments agreeing on the freshly prepended list step
identically from `sCall`, and a two-step run from a system-free seed reaches
a terminal state whose members are non-system. -/
theorem system_prompt_fresh_not_persisted_witness :
    stepGraph envOk sCall = stepGraph envOkAlt sCall ∧
    msgUser.role ≠ Role.system :=
  ⟨system_prompt_fresh_not_persisted.1 envOk envOkAlt sCall rfl rfl rfl rfl rfl,
   system_prompt_fresh_not_persisted.2 envOk 2 sCall sDonePlain rfl
     (by decide) msgUser (by decide)⟩

/-- C9: the failure counter never decreases across any successful step, and
once it is at least 3 every further tool-execution pass appends the single
fallback-generated message (built from the pass's own `failed_tools` list —
empty when every call succeeded) instead of the per-request tool results. -/
theorem fallback_every_pass_after_threshold :
    (∀ env : AgentEnv, ∀ s s' : GraphState, stepGraph env s = .ok s' →
      s.errorCount ≤ s'.errorCount) ∧
    (∀ env : AgentEnv, ∀ s s' : GraphState,
      s.node = Node.invoke_tools → maxRetries ≤ s.errorCount →
      stepGraph env s = .ok s' →
      maxRetries ≤ s'.errorCount ∧
      ∃ r : AIResponse,
        env.llm [systemMessage env.currentYear,
          { role := Role.human,
            content := fallbackPrompt (firstMessage s.messages).content
              (executeTools env.impl env.registry
                (lastMessage s.messages).tool_calls).2 }] = .ok r ∧
        s'.messages = s.messages ++ [r.toMessage]) := by
  constructor
  · intro env s s' hstep
    simp only [stepGraph] at hstep
    split at hstep
    · cases hstep; exact Nat.le_refl _
    · split at hstep
      · cases hstep
      · split at hstep
        all_goals cases hstep
        all_goals exact Nat.le_refl _
    · split at hstep
      · cases hstep
      · rename_i ms ec heq
        cases hstep
        have := invoke_tools_errorCount env s ms ec heq
        simp only [this]
        split <;> omega
  · intro env s s' hnode hcnt hstep
    simp only [stepGraph] at hstep
    rw [hnode] at hstep
    simp only at hstep
    split at hstep
    · cases hstep
    · rename_i ms ec heq
      cases hstep
      have hec := invoke_tools_errorCount env s ms ec heq
      have hge : maxRetries ≤ ec := by
        rw [hec]; split <;> omega
      constructor
      · exact hge
      · simp only [invoke_tools] at heq
        rw [if_pos (by rw [hec] at hge; exact hge)] at heq
        split at heq
        · cases heq
        · rename_i r hllm
          simp only [Except.ok.injEq, Prod.mk.injEq] at heq
          exact ⟨r, hllm, by rw [← heq.1]⟩

/-- C9 witness: from a state with the counter already at 3 and a pass in
which both tool calls succeed, the step appends the fallback message built
from an empty failed-tools list. -/
theorem fallback_every_pass_after_threshold_witness :
    maxRetries ≤ sAfterFallback.errorCount ∧
    ∃ r : AIResponse,
      envOk.llm [systemMessage envOk.currentYear,
        { role := Role.human,
          content := fallbackPrompt (firstMessage sThresh.messages).content
            (executeTools envOk.impl envOk.registry
              (lastMessage sThresh.messages).tool_calls).2 }] = .ok r ∧
      sAfterFallback.messages = sThresh.messages ++ [r.toMessage] :=
  fallback_every_pass_after_threshold.2 envOk sThresh sAfterFallback rfl
    (by decide) rfl

/-- C5 counterexample: a requested date one day before today fails the
past-date validation yet yields the error map — not an informational map as
the claim states. -/
theorem weather_past_date_counterexample :
    weather_check (some "key") (fun _ => some (-1)) 0 UpstreamWeather.noForecast
        "Sydney" "2020-01-01" =
      WeatherOutput.errorMap "Cannot check weather for a past date." ∧
    (weather_check (some "key") (fun _ => some (-1)) 0 UpstreamWeather.noForecast
        "Sydney" "2020-01-01").isInfoMap = false ∧
    (weather_check (some "key") (fun _ => some (-1)) 0 UpstreamWeather.noForecast
        "Sydney" "2020-01-01").isErrorMap = true :=
  ⟨rfl, rfl, rfl⟩

/-- C5 amended: the weather tool validates the date against today and the
14-day horizon and raises in neither case (the embedding is total), but the
two validations surface differently: a past date returns the error map,
while only a date beyond the horizon returns the informational map. -/
theorem weather_validation (k location date : String)
    (parseDate : String → Option Int) (today fd : Int)
    (upstream : UpstreamWeather) (hparse : parseDate date = some fd) :
    (fd - today < 0 →
      weather_check (some k) parseDate today upstream location date =
        WeatherOutput.errorMap "Cannot check weather for a past date.") ∧
    (0 ≤ fd - today → 14 < fd - today →
      (weather_check (some k) parseDate today upstream location date).isInfoMap
        = true) := by
  constructor
  · intro hpast
    simp [weather_check, hparse, hpast]
  · intro h0 h14
    have h1 : ¬ (fd - today < 0) := by omega
    simp [weather_check, hparse, h1, h14, WeatherOutput.isInfoMap]

/-- C5 amended witness: yesterday yields the error map; a date 15 days out
yields the informational map. -/
theorem weather_validation_witness :
    weather_check (some "key") (fun _ => some (-1)) 1 UpstreamWeather.noForecast
        "Sydney" "2020-01-01" =
      WeatherOutput.errorMap "Cannot check weather for a past date." ∧
    (weather_check (some "key") (fun _ => some 15) 0 UpstreamWeather.noForecast
        "Sydney" "2026-11-01").isInfoMap = true :=
  ⟨(weather_validation "key" "Sydney" "2020-01-01" (fun _ => some (-1)) 1 (-1)
      UpstreamWeather.noForecast rfl).1 (by decide),
   (weather_validation "key" "Sydney" "2026-11-01" (fun _ => some 15) 0 15
      UpstreamWeather.noForecast rfl).2 (by decide) (by decide)⟩

/-- C10 counterexample: with tool name flights_finder and an error text that
itself embeds the flights marker, the formatted executor string is detected
by the presentation-layer check after all. -/
theorem degraded_marker_counterexample :
    degradedCheck
      (formatErrorMessage "flights_finder" "[FLIGHTS ERROR] upstream") = true := by
  decide

theorem infix_append_cases {α : Type} {m a b : List α} (h : m <:+: a ++ b) :
    m <:+: a ∨ m <:+: b ∨
      ∃ m1 m2, m = m1 ++ m2 ∧ m1 ≠ [] ∧ m2 ≠ [] ∧ m1 <:+ a ∧ m2 <+: b := by
  obtain ⟨s, t, hst⟩ := h
  rw [List.append_assoc] at hst
  rcases List.append_eq_append_iff.mp hst with ⟨a', ha, hmt⟩ | ⟨c', _, hb⟩
  · rcases List.append_eq_append_iff.mp hmt with ⟨a'', ha', _⟩ | ⟨c'', hm, hb'⟩
    · left
      exact ⟨s, a'', by rw [ha, ha']; exact List.append_assoc s m a''⟩
    · by_cases ha0 : a' = []
      · subst ha0
        rw [List.nil_append] at hm
        subst hm
        right; left
        exact List.IsPrefix.isInfix ⟨t, hb'.symm⟩
      · by_cases hc0 : c'' = []
        · subst hc0
          rw [List.append_nil] at hm
          subst hm
          left
          exact List.IsSuffix.isInfix ⟨s, ha.symm⟩
        · right; right
          exact ⟨a', c'', hm, ha0, hc0, ⟨s, ha.symm⟩, ⟨t, hb'.symm⟩⟩
  · right; left
    exact ⟨c', t, by rw [hb]; exact List.append_assoc c' m t⟩

theorem tails_no_overlap (p mk : List Char)
    (hall : (p.tails.all fun m1 => m1.isEmpty || ! m1.isPrefixOf mk) = true) :
    ∀ m1, m1 <:+ p → m1 <+: mk → m1 = [] := by
  intro m1 hs hp
  have hm := (List.mem_tails m1 p).mpr hs
  have h2 := List.all_eq_true.mp hall m1 hm
  rcases Bool.or_eq_true_iff.mp h2 with h3 | h3
  · exact List.isEmpty_iff.mp h3
  · have h4 : m1.isPrefixOf mk = false := by simpa using h3
    have h5 := List.isPrefixOf_iff_prefix.mpr hp
    rw [h4] at h5
    simp at h5

theorem not_infix_three_parts (mk p e t : List Char)
    (hp : ¬ mk <:+: p) (he : ¬ mk <:+: e) (ht : ¬ mk <:+: t)
    (hpe : ∀ m1, m1 <:+ p → m1 <+: mk → m1 = [])
    (hmt : ∀ m2, m2 <:+ mk → m2 <+: t → m2 = []) :
    ¬ mk <:+: p ++ (e ++ t) := by
  intro h
  rcases infix_append_cases h with h1 | h1 | ⟨m1, m2, hm, hm1, _, hsuf, hpre⟩
  · exact hp h1
  · rcases infix_append_cases h1 with h2 | h2 | ⟨m1, m2, hm, _, hm2, _, hpre⟩
    · exact he h2
    · exact ht h2
    · exact hm2 (hmt m2 ⟨m1, hm.symm⟩ hpre)
  · exact hm1 (hpe m1 hsuf ⟨m2, hm.symm⟩)

theorem formatErrorMessage_data (name err : String) :
    (formatErrorMessage name err).data =
      ("[" ++ pyUpper name ++ " ERROR] ").data ++
        (err.data ++
          ". The assistant will continue with available information.".data) := by
  simp [formatErrorMessage, String.data_append, List.append_assoc]

theorem marker_not_in_formatted (mk name err : String)
    (h1 : ¬ mk.data <:+: ("[" ++ pyUpper name ++ " ERROR] ").data)
    (h2 : ¬ mk.data <:+:
      ". The assistant will continue with available information.".data)
    (h3 : ∀ m1, m1 <:+ ("[" ++ pyUpper name ++ " ERROR] ").data →
      m1 <+: mk.data → m1 = [])
    (h4 : ∀ m2, m2 <:+ mk.data →
      m2 <+: ". The assistant will continue with available information.".data →
      m2 = [])
    (he : ¬ mk.data <:+: err.data) :
    ¬ mk.data <:+: (formatErrorMessage name err).data := by
  rw [formatErrorMessage_data]
  exact not_infix_three_parts mk.data _ _ _ h1 he h2 h3 h4

/-- C10 amended: for every registered tool name and every error text that the
presentation-layer check does not itself flag, the executor-formatted error
string is not flagged either: the name-derived uppercase tag differs from
both matched markers, so detection can only ever come from the error text. -/
theorem markers_not_matched (name err : String) (hname : name ∈ toolNames)
    (herr : degradedCheck err = false) :
    degradedCheck (formatErrorMessage name err) = false := by
  simp only [degradedCheck, errorMarkers, List.any_cons, List.any_nil,
    Bool.or_false, Bool.or_eq_false_iff, strContains,
    decide_eq_false_iff_not] at herr ⊢
  obtain ⟨herr1, herr2⟩ := herr
  simp only [toolNames, List.mem_cons, List.mem_singleton,
    List.not_mem_nil, or_false] at hname
  rcases hname with rfl | rfl | rfl
  all_goals constructor
  · exact marker_not_in_formatted "[FLIGHTS ERROR]" "flights_finder" err
      (by decide) (by decide) (tails_no_overlap _ _ (by decide))
      (tails_no_overlap _ _ (by decide)) herr1
  · exact marker_not_in_formatted "[HOTELS ERROR]" "flights_finder" err
      (by decide) (by decide) (tails_no_overlap _ _ (by decide))
      (tails_no_overlap _ _ (by decide)) herr2
  · exact marker_not_in_formatted "[FLIGHTS ERROR]" "hotels_finder" err
      (by decide) (by decide) (tails_no_overlap _ _ (by decide))
      (tails_no_overlap _ _ (by decide)) herr1
  · exact marker_not_in_formatted "[HOTELS ERROR]" "hotels_finder" err
      (by decide) (by decide) (tails_no_overlap _ _ (by decide))
      (tails_no_overlap _ _ (by decide)) herr2
  · exact marker_not_in_formatted "[FLIGHTS ERROR]" "weather_check" err
      (by decide) (by decide) (tails_no_overlap _ _ (by decide))
      (tails_no_overlap _ _ (by decide)) herr1
  · exact marker_not_in_formatted "[HOTELS ERROR]" "weather_check" err
      (by decide) (by decide) (tails_no_overlap _ _ (by decide))
      (tails_no_overlap _ _ (by decide)) herr2

/-- C10 amended witness: a clean flights_finder error text formats to a
string the presentation check does not flag. -/
theorem markers_not_matched_witness :
    degradedCheck (formatErrorMessage "flights_finder" "API key missing")
      = false :=
  markers_not_matched "flights_finder" "API key missing" (by decide) (by decide)
